import Mathlib

/-!
Shallow embedding of `src/idle-detector.py` (idle-detection daemon).

The daemon watches a kernel log for iptables-tagged lines (via inotify),
counts down an idle deadline in milliseconds, resets the deadline to the
full configured period whenever a matching line appears, and — when a full
period elapses uninterrupted — fires an external command iff the number of
established connections was zero both at the end of the previous
uninterrupted wait (or at startup) and at the end of the current one.

Durations are modelled in milliseconds as `Nat` (Python ints are unbounded;
all quantities here are non-negative except the netstat line count minus
header, which is modelled as `Int` exactly as the source computes it).
-/

/-- The fixed log marker, `opt_iptables_log_pattern = "idle-detector"`
(line 77 of the source; no command-line option changes it). -/
def opt_iptables_log_pattern : String := "idle-detector"

/-- The full idle period in milliseconds: `opt_timeout * 60 * 1000`
(lines 123 and 129), where `optTimeout` is the `-t` option in minutes. -/
def idle_period (optTimeout : Nat) : Nat := optTimeout * 60 * 1000

/-- Python's `line.find(opt_iptables_log_pattern) >= 0` (line 122):
the pattern occurs as a substring of the line. -/
def line_matches (line : String) : Bool :=
  decide (List.IsInfix opt_iptables_log_pattern.toList line.toList)

/-- `EventLogger.process_IN_MODIFY` (lines 118-124) restricted to its effect
on `g_timeout`: for each newly read line, if the line contains the marker
pattern, set `g_timeout` to the full period; otherwise leave it. -/
def process_IN_MODIFY (optTimeout : Nat) (lines : List String) (g : Nat) : Nat :=
  lines.foldl (fun g line => if line_matches line then idle_period optTimeout else g) g

/-- One interruption of the blocking wait inside `wait_until_idle`:
`elapsed` is the measured wall-clock time `t` in milliseconds since the
last `time_start` (line 134), and `lines` are the new log lines the
`EventLogger` reads on the `IN_MODIFY` event (lines 120-124). -/
structure Interruption where
  elapsed : Nat
  lines : List String
  deriving DecidableEq

/-- One iteration of the `while notifier.check_events(g_timeout)` loop body
(lines 132-138): decrement `g_timeout` by the measured elapsed time only
when `t < g_timeout` (lines 135-136), then process the events, which may
reset `g_timeout` to the full period (line 137 calling lines 118-124). -/
def waitStep (optTimeout : Nat) (g : Nat) (i : Interruption) : Nat :=
  let g1 := if i.elapsed < g then g - i.elapsed else g
  process_IN_MODIFY optTimeout i.lines g1

/-- `wait_until_idle` (lines 126-138): arm `g_timeout` with the full period
(line 129) and run the loop body once per interruption; the returned value
is the remaining deadline with which the final (uninterrupted, timing-out)
`check_events` call blocks. -/
def wait_until_idle (optTimeout : Nat) (ints : List Interruption) : Nat :=
  ints.foldl (waitStep optTimeout) (idle_period optTimeout)

/-- Total wall-clock time one `wait_until_idle` call spends waiting: the
measured elapsed time of every interrupted `check_events` call plus the
final remaining deadline, for which the last `check_events` blocks in full
before timing out. -/
def totalWaitTime (optTimeout : Nat) (ints : List Interruption) : Nat :=
  (ints.map Interruption.elapsed).sum + wait_until_idle optTimeout ints

/-- `nb_established_connections` (lines 140-146): count the lines of the
netstat output one by one, then return the count minus 2 (the two-line
netstat header), as the Python int arithmetic computes it. -/
def nb_established_connections (netstatOutput : List String) : Int :=
  (netstatOutput.foldl (fun i _ => i + 1) (0 : Int)) - 2

/-- The regexp `"LOG.*prefix \"idle-detector\""` of line 99, applied with
`regexp.match` (line 103), which anchors at the start of the line: the line
starts with `LOG` and, after it, contains `prefix "idle-detector"`. -/
def rule_matches (line : String) : Bool :=
  String.isPrefixOf "LOG" line &&
    decide (List.IsInfix ("prefix \x22idle-detector\x22").toList (line.toList.drop 3))

/-- `check_iptables_config` (lines 96-107): count the iptables output lines
matched by the rule regexp; the returned flag is `true` iff the function
emits the syslog warning (`nb_rules < 1`, line 105). -/
def check_iptables_config (iptablesOutput : List String) : Bool :=
  decide (iptablesOutput.countP (fun l => rule_matches l) < 1)

/-- State of `EventLogger` (lines 109-124): the log file's current content
as a list of lines, and the read cursor `pos` — the index of the next
unread line (the file offset of `self.__fd`). -/
structure EventLogger where
  log : List String
  pos : Nat
  deriving DecidableEq

/-- `EventLogger.__init__` (lines 114-116): open the file and
`seek(0, 2)` — position the cursor at end-of-stream. -/
def EventLogger.init (log : List String) : EventLogger :=
  { log := log, pos := log.length }

/-- One `IN_MODIFY` event as seen by `EventLogger.process_IN_MODIFY`
(lines 118-124): `newLines` have been appended to the log; the handler
reads every line from the cursor to end-of-file (advancing the cursor) and
applies the `g_timeout` update of lines 121-124 to each. Returns the new
logger state, the lines actually read, and the new `g_timeout`. -/
def EventLogger.processModify (el : EventLogger) (optTimeout : Nat)
    (newLines : List String) (g : Nat) : EventLogger × List String × Nat :=
  let log := el.log ++ newLines
  let readLines := log.drop el.pos
  ({ log := log, pos := log.length }, readLines, process_IN_MODIFY optTimeout readLines g)

/-- Run the `EventLogger` over a sequence of appends, collecting the lines
read at each event and threading `g_timeout` through. -/
def runLogger (optTimeout : Nat) (el : EventLogger) (g : Nat) :
    List (List String) → EventLogger × List (List String) × Nat
  | [] => (el, [], g)
  | a :: rest =>
      let (el1, read1, g1) := el.processModify optTimeout a g
      let (el2, reads, g2) := runLogger optTimeout el1 g1 rest
      (el2, read1 :: reads, g2)

/-- The environment of one iteration of the `while True` decision loop
(lines 172-183): either `wait_until_idle` returns normally (with the
interruptions it absorbed, and the fresh `nb_established_connections`
sample taken after it), or it raises an `Exception` (the pyinotify watcher
failing, caught at line 175), or a termination signal arrives during the
wait (modelled as Python 2's `KeyboardInterrupt`, which derives from
`BaseException`, not `Exception`, and therefore is not caught by
`except Exception` at line 175). -/
inductive CycleEnv where
  | ok (ints : List Interruption) (conns : Nat)
  | waitError
  | termSignal
  deriving DecidableEq

/-- Outcome of running the decision loop on a finite environment list:
either still looping (`running`) with the fire decision of every completed
cycle and the current `nb_connec` baseline, or terminated (`exited`) with
the fire decisions of the completed cycles, whether the program's own
`except` branch printed the error (line 176), and the process exit status.
An uncaught `KeyboardInterrupt` terminates the interpreter with status 1;
the `except Exception` branch calls `exit(2)` (line 178). -/
inductive MainOutcome where
  | running (fires : List Bool) (nb_connec : Nat)
  | exited (fires : List Bool) (errPrinted : Bool) (exitCode : Nat)
  deriving DecidableEq

/-- The `while True` decision loop of `main` (lines 172-183): each cycle
waits, then sets `nb_connec_prev` to the previous sample, takes a fresh
sample, and runs the command iff both are zero (lines 179-183). -/
def mainLoop (nb : Nat) : List CycleEnv → MainOutcome
  | [] => .running [] nb
  | .waitError :: _ => .exited [] true 2
  | .termSignal :: _ => .exited [] false 1
  | .ok _ conns :: rest =>
      let fired := nb == 0 && conns == 0
      match mainLoop conns rest with
      | .running fires n => .running (fired :: fires) n
      | .exited fires p c => .exited (fired :: fires) p c

/-- Result of `main` after option parsing (lines 166-183): the
configuration sanity check's warning flag, then the decision loop seeded
with the single startup `nb_established_connections` sample (line 171). -/
structure MainResult where
  configWarning : Bool
  loop : MainOutcome
  deriving DecidableEq

/-- `main` (lines 166-183): run `check_iptables_config` once, sample the
startup connection-count baseline once, then enter the decision loop. -/
def mainRun (iptablesOutput : List String) (startupConns : Nat)
    (envs : List CycleEnv) : MainResult :=
  { configWarning := check_iptables_config iptablesOutput
    loop := mainLoop startupConns envs }

/-- Modelled from the spec: the fire decisions the spec prescribes — given
the previous baseline sample and the samples at the end of each successive
uninterrupted wait, the action fires in a cycle iff the previous and the
current sample are both zero. -/
def fireFlags : Nat → List Nat → List Bool
  | _, [] => []
  | prev, c :: cs => decide (prev = 0 ∧ c = 0) :: fireFlags c cs

-- Basic lemmas about the deadline arithmetic.

/-- `process_IN_MODIFY` resolves to: full period if any read line matches,
else the deadline unchanged. -/
theorem process_IN_MODIFY_eq (optTimeout : Nat) (lines : List String) (g : Nat) :
    process_IN_MODIFY optTimeout lines g =
      if lines.any line_matches then idle_period optTimeout else g := by
  induction lines generalizing g with
  | nil => rfl
  | cons l rest ih =>
      simp only [process_IN_MODIFY, List.foldl_cons, List.any_cons] at *
      by_cases h : line_matches l
      · simp [h, ih]
      · simp [h, ih]

/-- C3: for any sequence of N >= 1 matching log lines processed within one
wait interval, the resulting deadline is exactly one full idle period
(`opt_timeout * 60 * 1000` ms), identical to processing a single matching
line: the reset is idempotent, not additive. -/
theorem C3_reset_idempotent (optTimeout g g' : Nat) (lines : List String) (l : String)
    (hN : lines.any line_matches = true) (h1 : line_matches l = true) :
    process_IN_MODIFY optTimeout lines g = idle_period optTimeout ∧
    process_IN_MODIFY optTimeout lines g = process_IN_MODIFY optTimeout [l] g' := by
  simp [process_IN_MODIFY_eq, hN, h1]

/-- Witness for C3 at a concrete input: two matching lines interleaved with
a non-matching one yield the same deadline as one matching line, namely the
full period. -/
theorem C3_reset_idempotent_witness :
    process_IN_MODIFY 1 ["idle-detector: OUTPUT", "foo", "idle-detector: INPUT"] 5 =
      idle_period 1 ∧
    process_IN_MODIFY 1 ["idle-detector: OUTPUT", "foo", "idle-detector: INPUT"] 5 =
      process_IN_MODIFY 1 ["idle-detector: OUTPUT"] 7 :=
  C3_reset_idempotent 1 5 7 _ "idle-detector: OUTPUT" (by decide) (by decide)

/-- C2: a wait interrupted after `e` ms by an activity signal (a matching
line) ends up with the full idle period as its remaining deadline, whatever
interruptions preceded it in the same call — so with no further activity the
wait completes exactly `idle_period` ms after the interruption, and (for
`0 < e` and a positive period) not `idle_period - e` ms after it. -/
theorem C2_elapsed_time_accounting (optTimeout e : Nat) (pre : List Interruption)
    (lines : List String) (hmatch : lines.any line_matches = true) :
    wait_until_idle optTimeout (pre ++ [⟨e, lines⟩]) = idle_period optTimeout ∧
    (0 < e → 0 < optTimeout →
      wait_until_idle optTimeout (pre ++ [⟨e, lines⟩]) ≠ idle_period optTimeout - e) := by
  have h1 : wait_until_idle optTimeout (pre ++ [⟨e, lines⟩]) = idle_period optTimeout := by
    simp [wait_until_idle, List.foldl_append, waitStep, process_IN_MODIFY_eq, hmatch]
  refine ⟨h1, fun he ho => ?_⟩
  rw [h1]
  unfold idle_period
  omega

/-- Witness for C2 at a concrete input: an interruption by a matching line
after 30000 ms of a 1-minute period leaves the full 60000 ms deadline, not
30000 ms. -/
theorem C2_elapsed_time_accounting_witness :
    wait_until_idle 1 ([] ++ [⟨30000, ["idle-detector: INPUT SRC=10.0.0.1"]⟩]) =
      idle_period 1 ∧
    wait_until_idle 1 ([] ++ [⟨30000, ["idle-detector: INPUT SRC=10.0.0.1"]⟩]) ≠
      idle_period 1 - 30000 := by
  have h := C2_elapsed_time_accounting 1 30000 [] ["idle-detector: INPUT SRC=10.0.0.1"]
    (by decide)
  exact ⟨h.1, h.2 (by decide) (by decide)⟩

/-- C8: a wait-loop iteration triggered by a modification with no matching
line decrements the deadline by the measured elapsed time only when that
time is strictly below the remaining deadline, and leaves the deadline
unchanged otherwise; consequently some sequence of non-matching
modification events makes the total time spent waiting strictly exceed the
configured idle period. -/
theorem C8_nonmatching_drift :
    (∀ optTimeout g e lines, lines.any line_matches = false →
       waitStep optTimeout g ⟨e, lines⟩ = if e < g then g - e else g) ∧
    (∀ optTimeout, 0 < optTimeout → ∃ ints : List Interruption,
       (∀ i ∈ ints, i.lines.any line_matches = false) ∧
       idle_period optTimeout < totalWaitTime optTimeout ints) := by
  constructor
  · intro optTimeout g e lines h
    simp [waitStep, process_IN_MODIFY_eq, h]
  · intro optTimeout ho
    refine ⟨[⟨idle_period optTimeout, ["x"]⟩], ?_, ?_⟩
    · intro i hi
      simp only [List.mem_singleton] at hi
      subst hi
      show (["x"] : List String).any line_matches = false
      decide
    · have hx : (["x"] : List String).any line_matches = false := by decide
      have hpos : 0 < idle_period optTimeout := by unfold idle_period; omega
      simp [totalWaitTime, wait_until_idle, waitStep, process_IN_MODIFY_eq, hx]
      omega

/-- Witness for C8 at a concrete input: with a 1-minute period there is a
sequence of non-matching modification events whose total wait time exceeds
60000 ms. -/
theorem C8_nonmatching_drift_witness :
    ∃ ints : List Interruption,
      (∀ i ∈ ints, i.lines.any line_matches = false) ∧
      idle_period 1 < totalWaitTime 1 ints :=
  C8_nonmatching_drift.2 1 (by decide)

/-- The line counter of `nb_established_connections` counts the lines. -/
theorem foldl_count_eq (l : List String) (i : Int) :
    l.foldl (fun i _ => i + 1) i = i + l.length := by
  induction l generalizing i with
  | nil => simp
  | cons a t ih =>
      simp only [List.foldl_cons, List.length_cons, ih]
      push_cast
      ring

/-- Counterexample to C5: on an empty probe output the connection-count
function returns -2, a negative value, so it does not return a non-negative
integer for every possible output. -/
theorem C5_counterexample :
    nb_established_connections [] = -2 ∧ nb_established_connections [] < 0 := by
  constructor <;> decide

/-- C5 (amended): the connection-count function returns the number of
output lines minus the fixed two-line header offset as an integer, which is
non-negative whenever the output contains at least the two header lines. -/
theorem C5_count_minus_header (output : List String) (h : 2 ≤ output.length) :
    nb_established_connections output = (output.length : Int) - 2 ∧
    0 ≤ nb_established_connections output := by
  have hf : nb_established_connections output = (output.length : Int) - 2 := by
    unfold nb_established_connections
    rw [foldl_count_eq]
    ring
  refine ⟨hf, ?_⟩
  rw [hf]
  omega

/-- Witness for the amended C5 at a concrete input: two header lines plus
one connection line give count 1. -/
theorem C5_count_minus_header_witness :
    nb_established_connections ["Active Internet connections", "Proto Recv-Q", "tcp 0"] =
      ((["Active Internet connections", "Proto Recv-Q", "tcp 0"] : List String).length : Int)
        - 2 ∧
    0 ≤ nb_established_connections
      ["Active Internet connections", "Proto Recv-Q", "tcp 0"] :=
  C5_count_minus_header _ (by decide)

/-- `nb == 0 && conns == 0` (line 181) is the boolean for "both samples
are zero". -/
theorem beq_zero_and (a b : Nat) : (a == 0 && b == 0) = decide (a = 0 ∧ b = 0) := by
  by_cases ha : a = 0 <;> by_cases hb : b = 0 <;> simp [ha, hb]

/-- C1: over any run of normally completing cycles, the action command is
invoked in a cycle iff the connection count sampled at the end of the
previous uninterrupted full wait (the startup baseline for the first cycle)
and the one sampled at the end of the current wait are both zero — the fire
decisions are exactly `fireFlags` of the sample sequence, so a zero sample
at only one of the two endpoints never fires the action. -/
theorem C1_double_confirmation (baseline : Nat)
    (cycles : List (List Interruption × Nat)) :
    ∃ n, mainLoop baseline (cycles.map fun p => CycleEnv.ok p.1 p.2) =
      MainOutcome.running (fireFlags baseline (cycles.map Prod.snd)) n := by
  induction cycles generalizing baseline with
  | nil => exact ⟨baseline, rfl⟩
  | cons c rest ih =>
      obtain ⟨n, hn⟩ := ih c.2
      refine ⟨n, ?_⟩
      simp only [List.map_cons, mainLoop, hn, fireFlags, beq_zero_and]

/-- C4: when `wait_until_idle` raises an `Exception` (the watcher failing
mid-wait), the daemon prints the error, exits with status 2, and fires no
action for that cycle; and in the absence of a termination signal this is
the only condition on which the decision loop terminates — every
termination has exit status 2 and stems from a watcher error. -/
theorem C4_watcher_fatal :
    (∀ nb rest, mainLoop nb (CycleEnv.waitError :: rest) =
       MainOutcome.exited [] true 2) ∧
    (∀ nb envs fires p c, mainLoop nb envs = MainOutcome.exited fires p c →
       CycleEnv.termSignal ∉ envs → c = 2 ∧ CycleEnv.waitError ∈ envs) := by
  constructor
  · intro nb rest
    rfl
  · intro nb envs
    induction envs generalizing nb with
    | nil =>
        intro fires p c h _
        exact absurd h (by simp [mainLoop])
    | cons e rest ih =>
        intro fires p c h hnot
        cases e with
        | waitError =>
            have h2 : MainOutcome.exited ([] : List Bool) true 2 =
                MainOutcome.exited fires p c := by
              rw [← h]
              rfl
            cases h2
            exact ⟨rfl, List.mem_cons_self _ _⟩
        | termSignal =>
            exact absurd (List.mem_cons_self _ _) hnot
        | ok ints conns =>
            have hrest : CycleEnv.termSignal ∉ rest := fun hm =>
              hnot (List.mem_cons_of_mem _ hm)
            simp only [mainLoop] at h
            cases hrec : mainLoop conns rest with
            | running fires' n =>
                rw [hrec] at h
                exact absurd h (by simp)
            | exited fires2 p2 c2 =>
                rw [hrec] at h
                obtain ⟨hc2, hmem⟩ := ih conns fires2 p2 c2 hrec hrest
                have hcc : c = c2 := by
                  cases h
                  rfl
                exact ⟨hcc.trans hc2, List.mem_cons_of_mem _ hmem⟩

/-- Witness for C4 at a concrete input: a run whose first cycle raises a
watcher error exits with status 2 having come from a watcher error. -/
theorem C4_watcher_fatal_witness :
    (2 : Nat) = 2 ∧ CycleEnv.waitError ∈ [CycleEnv.waitError] :=
  C4_watcher_fatal.2 0 [CycleEnv.waitError] [] true 2 rfl (by decide)

/-- C6: `main` samples the connection-count baseline exactly once, before
the first wait cycle (the `startupConns` argument of `mainRun`); with zero
pre-existing connections and no activity, no action has fired before the
first full period completes, exactly one action has fired once it does, and
that first uninterrupted wait lasts exactly one full idle period. -/
theorem C6_startup_baseline (iptOut : List String) (optTimeout : Nat) :
    (mainRun iptOut 0 []).loop = MainOutcome.running [] 0 ∧
    (mainRun iptOut 0 [CycleEnv.ok [] 0]).loop = MainOutcome.running [true] 0 ∧
    totalWaitTime optTimeout [] = idle_period optTimeout := by
  refine ⟨rfl, rfl, ?_⟩
  simp [totalWaitTime, wait_until_idle]

/-- Counterexample to C7: a termination signal arriving during the first
wait terminates the daemon with exit status 1 — the `KeyboardInterrupt` is
not caught by `except Exception` and the interpreter does not exit with
status 0, contradicting the claimed clean (status 0) shutdown. -/
theorem C7_counterexample :
    mainLoop 0 [CycleEnv.termSignal] = MainOutcome.exited [] false 1 ∧
    (1 : Nat) ≠ 0 := by
  exact ⟨rfl, by decide⟩

/-- C7 (amended): on a termination signal during an in-progress wait the
daemon stops the wait and terminates without running the external action
command for that or any later cycle, but not with exit status 0: no signal
handler or clean-shutdown path is installed, so the `KeyboardInterrupt`
escapes the `except Exception` handler and the process exits with the
interpreter's status 1 (a default-disposition SIGTERM likewise kills the
process with a non-zero status). -/
theorem C7_term_signal (nb : Nat) (rest : List CycleEnv) :
    mainLoop nb (CycleEnv.termSignal :: rest) = MainOutcome.exited [] false 1 ∧
    (1 : Nat) ≠ 0 := by
  exact ⟨rfl, by decide⟩

/-- Closed form of a run of the `EventLogger` from any state whose cursor
sits at end-of-stream: each `IN_MODIFY` event reads exactly the lines
appended for it, the cursor ends at the new end-of-stream, and `g_timeout`
is folded through `process_IN_MODIFY` on those appended lines only. -/
theorem runLogger_spec (optTimeout : Nat) (appends : List (List String)) :
    ∀ (el : EventLogger) (g : Nat), el.pos = el.log.length →
      runLogger optTimeout el g appends =
        (⟨el.log ++ appends.flatten, (el.log ++ appends.flatten).length⟩, appends,
          appends.foldl (fun g a => process_IN_MODIFY optTimeout a g) g) := by
  induction appends with
  | nil =>
      intro el g h
      cases el
      simp only [runLogger, List.flatten_nil, List.append_nil]
      simp_all
  | cons a rest ih =>
      intro el g h
      have hdrop : (el.log ++ a).drop el.pos = a := by
        rw [h]
        exact List.drop_left el.log a
      have hrec := ih ⟨el.log ++ a, (el.log ++ a).length⟩
        (process_IN_MODIFY optTimeout a g) rfl
      simp only [runLogger, EventLogger.processModify, hdrop, hrec, List.flatten_cons,
        List.append_assoc, List.foldl_cons]

/-- C9: on attach the watcher's read cursor is at end-of-stream; across any
sequence of modification events the lines fed to the pattern check are
exactly the newly appended ones (so each log line is processed at most
once, and never a line present before startup), the cursor only advances —
ending at the initial position plus the total number of appended lines —
and the resulting `g_timeout` is independent of the log content present
before startup, so pre-existing lines never cause a deadline reset. -/
theorem C9_read_cursor (log0 log0' : List String) (appends : List (List String))
    (optTimeout g : Nat) :
    (EventLogger.init log0).pos = log0.length ∧
    (runLogger optTimeout (EventLogger.init log0) g appends).2.1 = appends ∧
    (runLogger optTimeout (EventLogger.init log0) g appends).1.pos =
      log0.length + (appends.map List.length).sum ∧
    (runLogger optTimeout (EventLogger.init log0) g appends).2.2 =
      (runLogger optTimeout (EventLogger.init log0') g appends).2.2 := by
  have h1 := runLogger_spec optTimeout appends (EventLogger.init log0) g rfl
  have h2 := runLogger_spec optTimeout appends (EventLogger.init log0') g rfl
  simp only [EventLogger.init] at h1 h2
  refine ⟨rfl, ?_, ?_, ?_⟩ <;>
    simp [EventLogger.init, h1, h2, List.length_flatten]

/-- C10: the startup sanity check warns exactly when no iptables output
line matches the LOG-rule regexp, and its outcome never alters the decision
loop — the loop component of `main`'s result is the same whatever the
iptables output, and equals the plain decision loop (so the check never
causes termination; the daemon continues into the loop). -/
theorem C10_config_check_advisory (iptOut iptOut2 : List String) (conns : Nat)
    (envs : List CycleEnv) :
    ((mainRun iptOut conns envs).configWarning = true ↔
      ∀ l ∈ iptOut, rule_matches l = false) ∧
    (mainRun iptOut conns envs).loop = (mainRun iptOut2 conns envs).loop ∧
    (mainRun iptOut conns envs).loop = mainLoop conns envs := by
  refine ⟨?_, rfl, rfl⟩
  simp [mainRun, check_iptables_config, Nat.lt_one_iff, List.countP_eq_zero]
